import Mathlib

/-!
Verification development for the CopilotKit runtime request orchestration core
(packages/runtime/src/lib/runtime/copilot-runtime.ts).

The TypeScript source is shallowly embedded: asynchronous calls to the outside
world (HTTP fetch, the LangGraph platform SDK, the service adapter, message
conversion, the remote-action setup living in remote-actions.ts) are modelled as
explicit environment functions gathered in a `World` structure, promises whose
eventual outcome matters are modelled as `Except` values, and the observable
side effects of a turn (remote-action setup, hook invocations, backend
dispatches, the chat error event) are recorded in an ordered effect log.
-/

deriving instance DecidableEq for Except

namespace CK

/-- Availability of a client-declared action (graphql ActionInputAvailability). -/
inductive ActionInputAvailability where
  | disabled
  | enabled
  | remote
deriving DecidableEq, Repr

/-- graphql ActionInput: a named action descriptor with a serialized JSON schema. -/
structure ActionInput where
  name : String
  description : String
  jsonSchema : String
  available : Option ActionInputAvailability := none
deriving DecidableEq, Repr

/-- A server-side Action (shared Action type). `jsonSchema` stands for the
precomputed JSON.stringify (actionParametersToJsonSchema parameters) of the
action's parameters (the serialization helpers are external to this core).
`isAgent` models isRemoteAgentAction from remote-actions.ts, which is not under
src. Modelled from the spec: an action is a remote-agent action exactly when it
carries a remote-agent streaming handler; the handler's stream content is not
needed by any property, so only the boolean presence is kept. -/
structure SSAction where
  name : String
  description : String
  jsonSchema : String
  isAgent : Bool := false
deriving DecidableEq, Repr

/-- The map from a server-side action to the ActionInput handed to backends
(name, description, serialized schema). -/
def toActionInput (a : SSAction) : ActionInput :=
  { name := a.name, description := a.description, jsonSchema := a.jsonSchema }

/-- Loop body of flattenToolCallsNoDuplicates: walk the prioritized list,
keeping a tool only when its name was not seen before (allTools / allToolNames
accumulators, exactly as the source's for-loop). -/
def flattenLoop : List ActionInput → List ActionInput → List String → List ActionInput
  | [], allTools, _ => allTools
  | tool :: rest, allTools, allToolNames =>
    if tool.name ∈ allToolNames then
      flattenLoop rest allTools allToolNames
    else
      flattenLoop rest (allTools ++ [tool]) (allToolNames ++ [tool.name])

/-- The action deduplicator (source: flattenToolCallsNoDuplicates). -/
def flattenToolCallsNoDuplicates (toolsByPriority : List ActionInput) : List ActionInput :=
  flattenLoop toolsByPriority [] []

/-- Tail-recursive reformulation of the dedup loop that only tracks the set of
seen names; used to reason about flattenLoop. -/
def dedupeGo : List ActionInput → List String → List ActionInput
  | [], _ => []
  | tool :: rest, seen =>
    if tool.name ∈ seen then dedupeGo rest seen
    else tool :: dedupeGo rest (seen ++ [tool.name])

lemma flattenLoop_eq_dedupeGo (l : List ActionInput) :
    ∀ acc seen, flattenLoop l acc seen = acc ++ dedupeGo l seen := by
  induction l with
  | nil => intro acc seen; simp [flattenLoop, dedupeGo]
  | cons t rest ih =>
    intro acc seen
    by_cases h : t.name ∈ seen
    · simp [flattenLoop, dedupeGo, h, ih]
    · simp [flattenLoop, dedupeGo, h, ih (acc ++ [t]) (seen ++ [t.name])]

lemma flattenToolCallsNoDuplicates_eq (l : List ActionInput) :
    flattenToolCallsNoDuplicates l = dedupeGo l [] := by
  simpa [flattenToolCallsNoDuplicates] using flattenLoop_eq_dedupeGo l [] []

lemma dedupeGo_sublist (l : List ActionInput) :
    ∀ seen, List.Sublist (dedupeGo l seen) l := by
  induction l with
  | nil => intro seen; simp [dedupeGo]
  | cons t rest ih =>
    intro seen
    by_cases h : t.name ∈ seen
    · simpa [dedupeGo, h] using (ih seen).cons t
    · simpa [dedupeGo, h] using (ih (seen ++ [t.name])).cons₂ t

lemma flatten_sublist (l : List ActionInput) :
    List.Sublist (flattenToolCallsNoDuplicates l) l := by
  rw [flattenToolCallsNoDuplicates_eq]; exact dedupeGo_sublist l []

lemma mem_of_mem_flatten {l : List ActionInput} {a : ActionInput}
    (h : a ∈ flattenToolCallsNoDuplicates l) : a ∈ l :=
  (flatten_sublist l).mem h

lemma dedupeGo_first_occurrence (l : List ActionInput) :
    ∀ seen, ∀ a ∈ dedupeGo l seen,
      a.name ∉ seen ∧ List.find? (fun t => t.name == a.name) l = some a := by
  induction l with
  | nil => intro seen a ha; simp [dedupeGo] at ha
  | cons t rest ih =>
    intro seen a ha
    by_cases h : t.name ∈ seen
    · rw [dedupeGo, if_pos h] at ha
      obtain ⟨hns, hfind⟩ := ih seen a ha
      have hne : (t.name == a.name) = false := by
        simp only [beq_eq_false_iff_ne, ne_eq]
        intro heq; exact hns (heq ▸ h)
      refine ⟨hns, ?_⟩
      rw [List.find?_cons_of_neg _ (by simp [hne]), hfind]
    · rw [dedupeGo, if_neg h] at ha
      rcases List.mem_cons.mp ha with rfl | ha'
      · exact ⟨h, by rw [List.find?_cons_of_pos _ (by simp)]⟩
      · obtain ⟨hns, hfind⟩ := ih (seen ++ [t.name]) a ha'
        rw [List.mem_append, not_or] at hns
        obtain ⟨hns1, hns2⟩ := hns
        have hne : (t.name == a.name) = false := by
          simp only [beq_eq_false_iff_ne, ne_eq]
          intro heq; exact hns2 (by simp [heq])
        refine ⟨hns1, ?_⟩
        rw [List.find?_cons_of_neg _ (by simp [hne]), hfind]

lemma dedupeGo_names_nodup (l : List ActionInput) :
    ∀ seen, ((dedupeGo l seen).map (fun a => a.name)).Nodup := by
  induction l with
  | nil => intro seen; simp [dedupeGo]
  | cons t rest ih =>
    intro seen
    by_cases h : t.name ∈ seen
    · simpa [dedupeGo, h] using ih seen
    · rw [dedupeGo, if_neg h]
      simp only [List.map_cons, List.nodup_cons]
      refine ⟨?_, ih (seen ++ [t.name])⟩
      intro hmem
      obtain ⟨a, ha, hname⟩ := List.mem_map.mp hmem
      have := (dedupeGo_first_occurrence rest (seen ++ [t.name]) a ha).1
      exact this (by simp [hname])

lemma dedupeGo_complete (l : List ActionInput) :
    ∀ seen, ∀ t ∈ l, t.name ∉ seen →
      ∃ a ∈ dedupeGo l seen, a.name = t.name := by
  induction l with
  | nil => intro seen t ht; simp at ht
  | cons u rest ih =>
    intro seen t ht htn
    by_cases h : u.name ∈ seen
    · rw [dedupeGo, if_pos h]
      rcases List.mem_cons.mp ht with rfl | ht'
      · exact absurd h htn
      · exact ih seen t ht' htn
    · rw [dedupeGo, if_neg h]
      rcases List.mem_cons.mp ht with rfl | ht'
      · exact ⟨_, List.mem_cons_self _ _, rfl⟩
      · by_cases hsame : t.name = u.name
        · exact ⟨u, List.mem_cons_self u _, hsame.symm⟩
        · have : t.name ∉ seen ++ [u.name] := by simp [htn, hsame]
          obtain ⟨a, ha, hname⟩ := ih (seen ++ [u.name]) t ht' this
          exact ⟨a, List.mem_cons_of_mem u ha, hname⟩

/-- Claim C1: for every ordered list of action inputs, flattenToolCallsNoDuplicates
returns a list in which each distinct action name appears exactly once (names are
nodup, every input name is represented, and each represented name has count one),
the retained entry for a name is the first occurrence of that name in the input
(List.find? on the name returns exactly the retained entry), and retained entries
keep their relative input order (the result is a sublist of the input). The
function is a pure Lean function, so it has no side effects on its input. -/
theorem C1_dedupe_first_occurrence_wins (l : List ActionInput) :
    ((flattenToolCallsNoDuplicates l).map (fun a => a.name)).Nodup
    ∧ List.Sublist (flattenToolCallsNoDuplicates l) l
    ∧ (∀ a ∈ flattenToolCallsNoDuplicates l,
        List.find? (fun t => t.name == a.name) l = some a)
    ∧ (∀ t ∈ l, ∃ a ∈ flattenToolCallsNoDuplicates l, a.name = t.name)
    ∧ (∀ n ∈ l.map (fun a => a.name),
        ((flattenToolCallsNoDuplicates l).map (fun a => a.name)).count n = 1) := by
  have hnodup : ((flattenToolCallsNoDuplicates l).map (fun a => a.name)).Nodup := by
    rw [flattenToolCallsNoDuplicates_eq]; exact dedupeGo_names_nodup l []
  have hcomplete : ∀ t ∈ l, ∃ a ∈ flattenToolCallsNoDuplicates l, a.name = t.name := by
    rw [flattenToolCallsNoDuplicates_eq]
    intro t ht
    exact dedupeGo_complete l [] t ht (by simp)
  refine ⟨hnodup, flatten_sublist l, ?_, hcomplete, ?_⟩
  · rw [flattenToolCallsNoDuplicates_eq]
    intro a ha
    exact (dedupeGo_first_occurrence l [] a ha).2
  · intro n hn
    obtain ⟨t, ht, rfl⟩ := List.mem_map.mp hn
    obtain ⟨a, ha, hname⟩ := hcomplete t ht
    exact hname ▸ List.count_eq_one_of_mem hnodup (List.mem_map.mpr ⟨a, ha, rfl⟩)

/-- Concrete action inputs exercising the deduplicator: two entries share the
name dup, with distinct descriptions, around an entry named solo. -/
def c1Input1 : ActionInput := { name := "dup", description := "first", jsonSchema := "s1" }

def c1Input2 : ActionInput := { name := "solo", description := "only", jsonSchema := "s2" }

def c1Input3 : ActionInput := { name := "dup", description := "second", jsonSchema := "s3" }

def c1List : List ActionInput := [c1Input1, c1Input2, c1Input3]

/-- Witness for C1 at a concrete list with a duplicate name: the name list of the
output is nodup, and the retained dup entry is the first occurrence c1Input1. -/
theorem C1_witness :
    ((flattenToolCallsNoDuplicates c1List).map (fun a => a.name)).Nodup
    ∧ List.find? (fun t => t.name == c1Input1.name) c1List = some c1Input1 :=
  ⟨(C1_dedupe_first_occurrence_wins c1List).1,
    (C1_dedupe_first_occurrence_wins c1List).2.2.1 c1Input1 (by decide)⟩

/-! ## Data model: messages, endpoints, errors, wire shapes -/

/-- graphql MessageInput; only the agentStateMessage discriminator is inspected
by this core (messages are filtered on it), the payload is opaque here. -/
structure MessageInput where
  id : String
  agentStateMessage : Bool := false
deriving DecidableEq, Repr

/-- A converted Message (output of convertGqlInputToMessages); opaque payload. -/
structure Message where
  id : String
deriving DecidableEq, Repr

/-- EndpointType from remote-actions.ts. -/
inductive EndpointType where
  | copilotKit
  | langGraphPlatform
deriving DecidableEq, Repr

/-- EndpointDefinition: an untagged union object. A CopilotKitEndpoint carries
url (and an optional onBeforeRequest header hook, elided here since headers are
built by an external helper); a LangGraphPlatformEndpoint carries deploymentUrl,
langsmithApiKey and a declared agents list. The tag may be absent (type none)
and is then inferred by resolveEndpointType. -/
structure EndpointDefinition where
  type : Option EndpointType := none
  url : String := ""
  deploymentUrl : Option String := none
  langsmithApiKey : Option String := none
  agents : Option (List String) := none
deriving DecidableEq, Repr

/-- Infers the endpoint variant when untagged (source: resolveEndpointType):
presence of both deploymentUrl and agents implies LangGraphPlatform, else
CopilotKit; an explicit tag is returned unchanged. -/
def resolveEndpointType (endpoint : EndpointDefinition) : EndpointType :=
  match endpoint.type with
  | none =>
    if endpoint.deploymentUrl.isSome ∧ endpoint.agents.isSome then
      EndpointType.langGraphPlatform
    else
      EndpointType.copilotKit
  | some t => t

/-- Caller context properties (graphqlContext.properties); only the
authorization property is inspected by this core. -/
structure Props where
  authorization : Option String := none
deriving DecidableEq, Repr

/-- A discovered Agent together with its owning endpoint (AgentWithEndpoint). -/
structure AgentWithEndpoint where
  name : String
  id : String
  description : String
  endpoint : EndpointDefinition
deriving DecidableEq, Repr

/-- The typed error taxonomy of the shared package:
misuse (CopilotKitMisuseError), apiDiscovery (CopilotKitApiDiscoveryError),
resolved (ResolvedCopilotKitError with status, url and the remote-endpoint
flag), agentDiscovery (CopilotKitAgentDiscoveryError) and lowLevel
(CopilotKitLowLevelError wrapping the original cause and the url). -/
inductive CopilotKitError where
  | misuse (message : String)
  | apiDiscovery (url : String)
  | resolved (status : Nat) (url : String) (isRemoteEndpoint : Bool)
  | agentDiscovery (agentName : String)
  | lowLevel (cause : String) (url : String)
deriving DecidableEq, Repr

/-- A thrown JavaScript value: either a typed CopilotKitError (instanceof
CopilotKitError holds) or a raw error carrying a message. -/
inductive JSError where
  | copilotKit (e : CopilotKitError)
  | raw (message : String)
deriving DecidableEq, Repr

/-- One agent entry of a DirectEndpoint /info response body. The wire JSON may
carry an id, but the InfoResponse interface in the source declares only name and
description and the mapping never reads an id from the body. -/
structure InfoAgentEntry where
  name : String
  description : Option String := none
  id : Option String := none
deriving DecidableEq, Repr

/-- An /info HTTP response: status plus parsed JSON body (agents may be absent). -/
structure InfoHttpResponse where
  status : Nat
  agents : Option (List InfoAgentEntry) := none
deriving DecidableEq, Repr

/-- One assistant returned by the LangGraph platform SDK assistants.search. -/
structure AssistantEntry where
  assistant_id : String
  graph_id : String
deriving DecidableEq, Repr

/-- An /agents/state HTTP response: status plus the parsed LoadAgentStateResponse
shaped body (state and messages are the parsed JSON values, kept abstract as
strings to be re-serialized). -/
structure StateHttpResponse where
  status : Nat
  threadId : String := ""
  threadExists : Bool := false
  state : String := ""
  messages : String := ""
deriving DecidableEq, Repr

/-- graphql LoadAgentStateResponse (threadId, threadExists, serialized state and
serialized messages). -/
structure LoadAgentStateResponse where
  threadId : String
  threadExists : Bool
  state : String
  messages : String
deriving DecidableEq, Repr

/-- The options given to the before-hook (OnBeforeRequestOptions). -/
structure OnBeforeRequestOptions where
  threadId : Option String
  runId : Option String
  inputMessages : List Message
  properties : Props
  url : Option String
deriving DecidableEq, Repr

/-- The options given to the after-hook (OnAfterRequestOptions). The TypeScript
declaration types threadId as string, but the agent path can pass undefined
when neither the request nor the session carries one, hence Option. -/
structure OnAfterRequestOptions where
  threadId : Option String
  runId : Option String
  inputMessages : List Message
  outputMessages : List Message
  properties : Props
  url : Option String
deriving DecidableEq, Repr

/-- The arguments handed to serviceAdapter.process. forwardedParameters,
extensions, agentSession and agentStates are forwarded opaquely and elided;
eventSource is the event channel the adapter feeds (not part of the pure data). -/
structure AdapterProcessArgs where
  messages : List Message
  actions : List ActionInput
  threadId : Option String
  runId : Option String
deriving DecidableEq, Repr

/-- The result of serviceAdapter.process. -/
structure AdapterResult where
  threadId : String
  runId : Option String := none
  extensions : Option String := none
deriving DecidableEq, Repr

/-- A service adapter: the EmptyAdapter flag (instanceof EmptyAdapter) and the
process capability, which may reject (raw error). -/
structure ServiceAdapter where
  isEmptyAdapter : Bool
  process : AdapterProcessArgs → Except String AdapterResult

/-- graphql AgentSessionInput. -/
structure AgentSessionInput where
  agentName : String
  threadId : Option String := none
  nodeName : Option String := none
deriving DecidableEq, Repr

/-- The arguments handed to a remote agent's streaming handler
(currentAgent.remoteAgentHandler); metaEvents are forwarded opaquely and elided. -/
structure RemoteAgentCallArgs where
  name : String
  threadId : Option String
  nodeName : Option String
  actionInputsWithoutAgents : List ActionInput
deriving DecidableEq, Repr

/-- The environment of one turn: every asynchronous collaborator the core calls
into, modelled as deterministic functions. setupRemoteActions and the
langchain-message conversion live in repository files that are not under src;
they are modelled from the spec as opaque environment capabilities (the spec
only constrains what this core does with their results). randomId draws are
modelled as an indexed supply consumed left to right within one discovery call. -/
structure World where
  convertGqlInputToMessages : List MessageInput → List Message
  setupRemoteActions : List EndpointDefinition → Props → List Message → Option String → List SSAction
  assistantsSearch : String → Option String → Props → Except String (List AssistantEntry)
  infoFetch : String → Props → Except String InfoHttpResponse
  agentsStateFetch : String → Props → String → String → Except String StateHttpResponse
  threadsGetState : String → String → Except String (List (String × String))
  randomId : Nat → String
  langchainMessagesToCopilotKit : Option String → String
  jsonStringify : String → String

/-- The static actions configuration: a fixed list or a function of the caller
context (ActionsConfiguration). -/
inductive ActionsConfiguration where
  | list (actions : List SSAction)
  | func (f : Props → Option String → List SSAction)

/-- The CopilotRuntime instance state after construction. langserve holds the
chain promises resolved at construction (RemoteChain.toAction is external): each
entry is the eventual outcome of one chain promise. -/
structure CopilotRuntime where
  actions : ActionsConfiguration
  remoteEndpointDefinitions : List EndpointDefinition
  langserve : List (Except String SSAction) := []
  onBeforeRequest : Option (OnBeforeRequestOptions → Except String Unit) := none
  onAfterRequest : Option (OnAfterRequestOptions → Except String Unit) := none
  delegateAgentProcessingToServiceAdapter : Bool := false

/-- Middleware constructor parameter. -/
structure MiddlewareModel where
  onBeforeRequest : Option (OnBeforeRequestOptions → Except String Unit) := none
  onAfterRequest : Option (OnAfterRequestOptions → Except String Unit) := none

/-- CopilotRuntimeConstructorParams. -/
structure CopilotRuntimeConstructorParams where
  middleware : Option MiddlewareModel := none
  actions : Option ActionsConfiguration := none
  remoteActions : Option (List EndpointDefinition) := none
  remoteEndpoints : Option (List EndpointDefinition) := none
  langserve : Option (List (Except String SSAction)) := none
  delegateAgentProcessingToServiceAdapter : Option Bool := none

/-- The CopilotRuntime constructor. An ActionsConfiguration (array or function)
is always truthy in JavaScript, as is any array of endpoints, so the source's
params?.actions && params?.remoteEndpoints test is presence of both fields. -/
def CopilotRuntime.construct (params : Option CopilotRuntimeConstructorParams) : CopilotRuntime :=
  { actions :=
      match params with
      | some p =>
        if p.actions.isSome ∧ p.remoteEndpoints.isSome then ActionsConfiguration.list []
        else p.actions.getD (ActionsConfiguration.list [])
      | none => ActionsConfiguration.list []
    remoteEndpointDefinitions :=
      match params with
      | some p => (p.remoteEndpoints.orElse (fun _ => p.remoteActions)).getD []
      | none => []
    langserve :=
      match params with
      | some p => p.langserve.getD []
      | none => []
    onBeforeRequest :=
      match params with
      | some p => p.middleware.bind (fun m => m.onBeforeRequest)
      | none => none
    onAfterRequest :=
      match params with
      | some p => p.middleware.bind (fun m => m.onAfterRequest)
      | none => none
    delegateAgentProcessingToServiceAdapter :=
      match params with
      | some p => p.delegateAgentProcessingToServiceAdapter.getD false
      | none => false }

/-- CopilotRuntimeRequest. outputMessagesPromise is modelled by its eventual
outcome; publicApiKey, forwardedParameters, extensions, metaEvents and
agentStates are forwarded opaquely and elided. -/
structure CopilotRuntimeRequest where
  serviceAdapter : ServiceAdapter
  messages : List MessageInput := []
  actions : List ActionInput := []
  agentSession : Option AgentSessionInput := none
  outputMessagesPromise : Except String (List Message) := Except.ok []
  threadId : Option String := none
  runId : Option String := none
  properties : Props := {}
  url : Option String := none

/-- CopilotRuntimeResponse. threadId is typed string in the source but the agent
path returns the request/session thread id, which may be absent, hence Option. -/
structure CopilotRuntimeResponse where
  threadId : Option String
  runId : Option String
  serverSideActions : List SSAction
  actionInputsWithoutAgents : List ActionInput
  extensions : Option String
deriving DecidableEq, Repr

/-- An observable side effect of one turn, in program order: the remote-action
setup of action assembly, the awaited before-hook, a service adapter dispatch, a
remote agent handler invocation, or the in-band chat error event emitted by the
last-resort catch (eventSource.sendErrorMessageToChat). -/
inductive Effect where
  | setupRemoteActionsRun
  | beforeHook (args : OnBeforeRequestOptions)
  | adapterProcess (args : AdapterProcessArgs)
  | remoteAgentInvoke (args : RemoteAgentCallArgs)
  | sendErrorMessageToChat
deriving DecidableEq, Repr

/-- What one processRuntimeRequest invocation produces: the ordered effect log,
the outcome (returned response or thrown error), and the deferred after-hook
invocation scheduled on the output-messages promise (none when the promise
rejects - the .then callback never runs and .catch swallows the rejection - or
when the turn failed before scheduling). The after-hook's own result is
deliberately not represented anywhere: the source drops it. -/
structure RunOutput where
  effects : List Effect
  outcome : Except JSError CopilotRuntimeResponse
  afterHook : Option OnAfterRequestOptions
deriving Repr

/-! ## getServerSideActions and the request processors -/

/-- Assembles the server-side action set (source: getServerSideActions): the
configured static/functional actions, then the successfully resolved langserve
chains (failed chain promises are logged and skipped), then the remote-endpoint
actions from setupRemoteActions over the type-resolved endpoint definitions. -/
def getServerSideActions (w : World) (rt : CopilotRuntime) (req : CopilotRuntimeRequest) :
    List SSAction :=
  let inputMessages := w.convertGqlInputToMessages req.messages
  let langserveFunctions := rt.langserve.filterMap Except.toOption
  let remoteEndpointDefinitions := rt.remoteEndpointDefinitions.map
    (fun endpoint => { endpoint with type := some (resolveEndpointType endpoint) })
  let remoteActions := w.setupRemoteActions remoteEndpointDefinitions req.properties
    inputMessages req.url
  let configuredActions :=
    match rt.actions with
    | ActionsConfiguration.list as => as
    | ActionsConfiguration.func f => f req.properties req.url
  configuredActions ++ langserveFunctions ++ remoteActions

/-- The message of the CopilotKitMisuseError thrown for an EmptyAdapter outside
agent lock mode. -/
def emptyAdapterMisuseMessage : String :=
  "Invalid adapter configuration: EmptyAdapter is only meant to be used with agent lock mode. For non-agent components like useCopilotChatSuggestions, CopilotTextarea, or CopilotTask, please use an LLM adapter instead."

/-- The arguments processRuntimeRequest hands to serviceAdapter.process on the
direct-dispatch path: agent-state messages filtered out and converted, the
deduplicated action inputs (server-resolved first, then client actions that are
not remote-only), and the caller-supplied thread/run ids. -/
def directAdapterArgs (w : World) (rt : CopilotRuntime) (req : CopilotRuntimeRequest) :
    AdapterProcessArgs :=
  let messages := req.messages.filter (fun message => ¬ message.agentStateMessage)
  let inputMessages := w.convertGqlInputToMessages messages
  let serverSideActions := getServerSideActions w rt req
  let serverSideActionsInput := serverSideActions.map toActionInput
  let actionInputs := flattenToolCallsNoDuplicates
    (serverSideActionsInput
      ++ req.actions.filter (fun action => action.available ≠ some ActionInputAvailability.remote))
  { messages := inputMessages, actions := actionInputs,
    threadId := req.threadId, runId := req.runId }

/-- The direct-dispatch path of processRuntimeRequest (everything after the
agent-session branch): EmptyAdapter misuse check, action assembly, before-hook,
adapter dispatch, backwards-compatible thread id resolution, fire-and-forget
after-hook scheduling, and the returned response. -/
def processDirectRequest (w : World) (rt : CopilotRuntime) (req : CopilotRuntimeRequest) :
    RunOutput :=
  if req.serviceAdapter.isEmptyAdapter then
    { effects := [],
      outcome := Except.error (JSError.copilotKit
        (CopilotKitError.misuse emptyAdapterMisuseMessage)),
      afterHook := none }
  else
    let messages := req.messages.filter (fun message => ¬ message.agentStateMessage)
    let inputMessages := w.convertGqlInputToMessages messages
    let serverSideActions := getServerSideActions w rt req
    let args := directAdapterArgs w rt req
    let beforeArgs : OnBeforeRequestOptions :=
      { threadId := req.threadId, runId := req.runId, inputMessages := inputMessages,
        properties := req.properties, url := req.url }
    match (match rt.onBeforeRequest with
           | some h => h beforeArgs
           | none => Except.ok ()) with
    | Except.error e =>
      { effects := [Effect.setupRemoteActionsRun, Effect.beforeHook beforeArgs],
        outcome := Except.error (JSError.raw e), afterHook := none }
    | Except.ok _ =>
      match req.serviceAdapter.process args with
      | Except.error e =>
        { effects := [Effect.setupRemoteActionsRun, Effect.beforeHook beforeArgs,
            Effect.adapterProcess args],
          outcome := Except.error (JSError.raw e), afterHook := none }
      | Except.ok result =>
        let nonEmptyThreadId := req.threadId.getD result.threadId
        { effects := [Effect.setupRemoteActionsRun, Effect.beforeHook beforeArgs,
            Effect.adapterProcess args],
          outcome := Except.ok
            { threadId := some nonEmptyThreadId,
              runId := result.runId,
              serverSideActions := serverSideActions,
              actionInputsWithoutAgents := args.actions.filter
                (fun action =>
                  ¬ (serverSideActions.any
                    (fun serverSideAction => serverSideAction.name == action.name))),
              extensions := result.extensions },
          afterHook :=
            match req.outputMessagesPromise with
            | Except.ok outputMessages =>
              some { threadId := some nonEmptyThreadId, runId := result.runId,
                     inputMessages := inputMessages, outputMessages := outputMessages,
                     properties := req.properties, url := req.url }
            | Except.error _ => none }

/-- The delegated action set built for an agent run (inlined in the source):
all non-agent server actions plus every other agent's action (self excluded),
mapped to action inputs, merged with the client-declared actions through the
deduplicator. -/
def delegatedActionInputs (serverSideActions : List SSAction)
    (clientActions : List ActionInput) (agentName : String) : List ActionInput :=
  let availableActionsForCurrentAgent := (serverSideActions.filter
    (fun action =>
      ¬ action.isAgent ∨ (action.isAgent ∧ action.name ≠ agentName))).map toActionInput
  flattenToolCallsNoDuplicates (availableActionsForCurrentAgent ++ clientActions)

/-- The agent-delegation path (source: processAgentRequest), called only with an
agent session present: backwards-compatible thread id resolution, action
assembly, locating the named remote-agent action (missing raises
CopilotKitAgentDiscoveryError), before-hook, remote agent handler invocation
feeding the event source in forwarding mode, fire-and-forget after-hook
scheduling, and the returned response. The handler's event stream is consumed by
the event source and does not influence the returned response. -/
def processAgentRequest (w : World) (rt : CopilotRuntime) (req : CopilotRuntimeRequest)
    (agentSession : AgentSessionInput) : RunOutput :=
  let agentName := agentSession.agentName
  let nodeName := agentSession.nodeName
  let threadId :=
    match req.threadId with
    | some t => some t
    | none => agentSession.threadId
  let serverSideActions := getServerSideActions w rt req
  let messages := w.convertGqlInputToMessages req.messages
  match serverSideActions.find? (fun action => action.name == agentName && action.isAgent) with
  | none =>
    { effects := [Effect.setupRemoteActionsRun],
      outcome := Except.error (JSError.copilotKit (CopilotKitError.agentDiscovery agentName)),
      afterHook := none }
  | some _currentAgent =>
    let allAvailableActions := delegatedActionInputs serverSideActions req.actions agentName
    let beforeArgs : OnBeforeRequestOptions :=
      { threadId := threadId, runId := none, inputMessages := messages,
        properties := req.properties, url := none }
    match (match rt.onBeforeRequest with
           | some h => h beforeArgs
           | none => Except.ok ()) with
    | Except.error e =>
      { effects := [Effect.setupRemoteActionsRun, Effect.beforeHook beforeArgs],
        outcome := Except.error (JSError.raw e), afterHook := none }
    | Except.ok _ =>
      let callArgs : RemoteAgentCallArgs :=
        { name := agentName, threadId := threadId, nodeName := nodeName,
          actionInputsWithoutAgents := allAvailableActions }
      { effects := [Effect.setupRemoteActionsRun, Effect.beforeHook beforeArgs,
          Effect.remoteAgentInvoke callArgs],
        outcome := Except.ok
          { threadId := threadId, runId := none,
            serverSideActions := serverSideActions,
            actionInputsWithoutAgents := allAvailableActions,
            extensions := none },
        afterHook :=
          match req.outputMessagesPromise with
          | Except.ok outputMessages =>
            some { threadId := threadId, runId := none, inputMessages := messages,
                   outputMessages := outputMessages, properties := req.properties,
                   url := none }
          | Except.error _ => none }

/-- The dispatch decision of processRuntimeRequest: the agent path is taken
when an agent session is present and agent processing is not delegated to the
service adapter, otherwise the direct path. -/
def runtimeDispatch (w : World) (rt : CopilotRuntime) (req : CopilotRuntimeRequest) :
    RunOutput :=
  match req.agentSession with
  | some agentSession =>
    if ¬ rt.delegateAgentProcessingToServiceAdapter then
      processAgentRequest w rt req agentSession
    else
      processDirectRequest w rt req
  | none => processDirectRequest w rt req

/-- The try/catch around the dispatch: typed CopilotKitErrors are rethrown
unchanged; any other error is logged, the in-band chat error event is emitted
on the event source, and the error rethrown. -/
def processRuntimeRequest (w : World) (rt : CopilotRuntime) (req : CopilotRuntimeRequest) :
    RunOutput :=
  let r := runtimeDispatch w rt req
  match r.outcome with
  | Except.error (JSError.raw _) =>
    { r with effects := r.effects ++ [Effect.sendErrorMessageToChat] }
  | _ => r

/-! ## Agent discovery and agent state loading -/

/-- Maps the agent entries of a successful /info response, drawing one fresh
random id per agent from the indexed supply, left to right (source: the map
with id := randomId() - the body's own id, when present, is never read). -/
def assignIds (w : World) (endpoint : EndpointDefinition) :
    List InfoAgentEntry → Nat → List AgentWithEndpoint
  | [], _ => []
  | entry :: rest, idx =>
    { name := entry.name, id := w.randomId idx,
      description := entry.description.getD "", endpoint := endpoint }
      :: assignIds w endpoint rest (idx + 1)

/-- One step of the discovery reduce (the reduce callback's body for one
endpoint). For a LangGraphPlatform endpoint the SDK's assistants.search is
queried (a rejection propagates unwrapped). For any other endpoint a POST to
url/info is classified: a network rejection or any error that is not a typed
CopilotKitError is wrapped as CopilotKitLowLevelError with the attempted url;
a non-2xx status raises CopilotKitApiDiscoveryError for 404 and
ResolvedCopilotKitError (status, url, isRemoteEndpoint true) otherwise; typed
errors pass through the catch unchanged. Returns the agents and the next free
random-id index. -/
def discoverEndpointAgents (w : World) (properties : Props) (endpoint : EndpointDefinition)
    (idBase : Nat) : Except JSError (List AgentWithEndpoint × Nat) :=
  if endpoint.type = some EndpointType.langGraphPlatform then
    match w.assistantsSearch (endpoint.deploymentUrl.getD "") endpoint.langsmithApiKey
        properties with
    | Except.error e => Except.error (JSError.raw e)
    | Except.ok entries =>
      Except.ok
        (entries.map (fun entry =>
          { name := entry.graph_id, id := entry.assistant_id, description := "",
            endpoint := endpoint }), idBase)
  else
    let fetchUrl := endpoint.url ++ "/info"
    let attempt : Except JSError (List AgentWithEndpoint × Nat) :=
      match w.infoFetch fetchUrl properties with
      | Except.error cause => Except.error (JSError.raw cause)
      | Except.ok response =>
        if 200 ≤ response.status ∧ response.status < 300 then
          let entries := response.agents.getD []
          Except.ok (assignIds w endpoint entries idBase, idBase + entries.length)
        else if response.status = 404 then
          Except.error (JSError.copilotKit (CopilotKitError.apiDiscovery fetchUrl))
        else
          Except.error (JSError.copilotKit
            (CopilotKitError.resolved response.status fetchUrl true))
    match attempt with
    | Except.error (JSError.copilotKit e) => Except.error (JSError.copilotKit e)
    | Except.error (JSError.raw cause) =>
      Except.error (JSError.copilotKit (CopilotKitError.lowLevel cause fetchUrl))
    | Except.ok v => Except.ok v

/-- The sequential left-to-right accumulation of discoverAgentsFromEndpoints'
reduce: any individual endpoint error aborts the whole discovery. -/
def discoverLoop (w : World) (properties : Props) :
    List EndpointDefinition → Nat → Except JSError (List AgentWithEndpoint)
  | [], _ => Except.ok []
  | endpoint :: rest, idBase =>
    match discoverEndpointAgents w properties endpoint idBase with
    | Except.error err => Except.error err
    | Except.ok (agents, nextId) =>
      match discoverLoop w properties rest nextId with
      | Except.error err => Except.error err
      | Except.ok more => Except.ok (agents ++ more)

/-- discoverAgentsFromEndpoints: queries every configured endpoint definition in
configuration order. Note: discovery branches on the raw endpoint.type field
(untagged definitions take the CopilotKit branch, without resolveEndpointType). -/
def discoverAgentsFromEndpoints (w : World) (rt : CopilotRuntime) (properties : Props) :
    Except JSError (List AgentWithEndpoint) :=
  discoverLoop w properties rt.remoteEndpointDefinitions 0

/-- JavaScript s || fallback for strings: the empty string is falsy. -/
def jsOr (s fallback : String) : String :=
  if s = "" then fallback else s

/-- JSON.stringify of an object modelled as an ordered key/value list whose
values are already serialized; stringifyObj [] is the serialized empty
object. -/
def stringifyObj (fields : List (String × String)) : String :=
  "\x7b" ++ String.intercalate "," (fields.map (fun kv => "\x22" ++ kv.1 ++ "\x22:" ++ kv.2))
    ++ "\x7d"

/-- loadAgentState: discover agents, locate the requested one (missing raises a
raw Error), then branch on the owning endpoint. LangGraphPlatform: fetch the
thread state via the SDK, swallowing any rejection (the state object then stays
empty); an empty state yields threadExists false with serialized empty state and
messages; otherwise the messages key is stripped from the state, the remaining
state re-serialized, and the messages converted through
langchainMessagesToCopilotKit and serialized (modelled as one environment
function, remote-lg-action.ts not being under src). CopilotKit endpoints: POST
url/agents/state with the same 404 / non-2xx / network error classification as
discovery, re-serializing the returned state and messages on success. -/
def loadAgentState (w : World) (rt : CopilotRuntime) (properties : Props)
    (threadId : String) (agentName : String) : Except JSError LoadAgentStateResponse :=
  match discoverAgentsFromEndpoints w rt properties with
  | Except.error e => Except.error e
  | Except.ok agentsWithEndpoints =>
    match agentsWithEndpoints.find? (fun agent => agent.name == agentName) with
    | none => Except.error (JSError.raw "Agent not found")
    | some agentWithEndpoint =>
      if agentWithEndpoint.endpoint.type = some EndpointType.langGraphPlatform then
        let state :=
          match w.threadsGetState (agentWithEndpoint.endpoint.deploymentUrl.getD "")
              threadId with
          | Except.ok values => values
          | Except.error _ => []
        if state.length = 0 then
          Except.ok
            { threadId := jsOr threadId "", threadExists := false,
              state := stringifyObj [], messages := "[]" }
        else
          let stateWithoutMessages := state.filter (fun kv => kv.1 ≠ "messages")
          let messagesValue := (state.find? (fun kv => kv.1 == "messages")).map
            (fun kv => kv.2)
          Except.ok
            { threadId := jsOr threadId "", threadExists := true,
              state := stringifyObj stateWithoutMessages,
              messages := w.langchainMessagesToCopilotKit messagesValue }
      else
        let fetchUrl := agentWithEndpoint.endpoint.url ++ "/agents/state"
        let attempt : Except JSError LoadAgentStateResponse :=
          match w.agentsStateFetch fetchUrl properties threadId agentName with
          | Except.error cause => Except.error (JSError.raw cause)
          | Except.ok response =>
            if 200 ≤ response.status ∧ response.status < 300 then
              Except.ok
                { threadId := response.threadId, threadExists := response.threadExists,
                  state := w.jsonStringify response.state,
                  messages := w.jsonStringify response.messages }
            else if response.status = 404 then
              Except.error (JSError.copilotKit (CopilotKitError.apiDiscovery fetchUrl))
            else
              Except.error (JSError.copilotKit
                (CopilotKitError.resolved response.status fetchUrl true))
        match attempt with
        | Except.error (JSError.copilotKit e) => Except.error (JSError.copilotKit e)
        | Except.error (JSError.raw cause) =>
          Except.error (JSError.copilotKit (CopilotKitError.lowLevel cause fetchUrl))
        | Except.ok v => Except.ok v

/-! ## Helper lemmas about the processor wrapper -/

lemma processRuntimeRequest_outcome_eq (w : World) (rt : CopilotRuntime)
    (req : CopilotRuntimeRequest) :
    (processRuntimeRequest w rt req).outcome = (runtimeDispatch w rt req).outcome := by
  unfold processRuntimeRequest
  rcases h : (runtimeDispatch w rt req).outcome with e | resp
  · rcases e with ce | m <;> simp [h]
  · simp [h]

lemma processRuntimeRequest_afterHook_eq (w : World) (rt : CopilotRuntime)
    (req : CopilotRuntimeRequest) :
    (processRuntimeRequest w rt req).afterHook = (runtimeDispatch w rt req).afterHook := by
  unfold processRuntimeRequest
  rcases h : (runtimeDispatch w rt req).outcome with e | resp
  · rcases e with ce | m <;> simp [h]
  · simp [h]

lemma processRuntimeRequest_effects_of_not_raw (w : World) (rt : CopilotRuntime)
    (req : CopilotRuntimeRequest)
    (h : ∀ m, (runtimeDispatch w rt req).outcome ≠ Except.error (JSError.raw m)) :
    (processRuntimeRequest w rt req).effects = (runtimeDispatch w rt req).effects := by
  unfold processRuntimeRequest
  rcases hd : (runtimeDispatch w rt req).outcome with e | resp
  · rcases e with ce | m
    · simp [hd]
    · exact absurd hd (h m)
  · simp [hd]

lemma runtimeDispatch_direct (w : World) (rt : CopilotRuntime) (req : CopilotRuntimeRequest)
    (hmode : req.agentSession = none ∨ rt.delegateAgentProcessingToServiceAdapter = true) :
    runtimeDispatch w rt req = processDirectRequest w rt req := by
  rcases hmode with h | h
  · simp [runtimeDispatch, h]
  · cases hs : req.agentSession <;> simp [runtimeDispatch, h, hs]

lemma runtimeDispatch_agent (w : World) (rt : CopilotRuntime) (req : CopilotRuntimeRequest)
    (s : AgentSessionInput) (hs : req.agentSession = some s)
    (hd : rt.delegateAgentProcessingToServiceAdapter = false) :
    runtimeDispatch w rt req = processAgentRequest w rt req s := by
  simp [runtimeDispatch, hs, hd]

/-! ## Claim C7: EmptyAdapter misuse rejection -/

/-- Claim C7: for every turn whose service adapter is the EmptyAdapter and which
is not an agent-delegated turn (no agent session, or agent processing delegated
to the adapter), processing rejects with the CopilotKitMisuseError and its
effect log is empty - so the rejection happens before action assembly, before
the before-hook, and before any backend dispatch. -/
theorem C7_empty_adapter_misuse (w : World) (rt : CopilotRuntime) (req : CopilotRuntimeRequest)
    (hmode : req.agentSession = none ∨ rt.delegateAgentProcessingToServiceAdapter = true)
    (hempty : req.serviceAdapter.isEmptyAdapter = true) :
    (processRuntimeRequest w rt req).outcome
      = Except.error (JSError.copilotKit (CopilotKitError.misuse emptyAdapterMisuseMessage))
    ∧ (processRuntimeRequest w rt req).effects = [] := by
  have hdir : processDirectRequest w rt req =
      { effects := [],
        outcome := Except.error (JSError.copilotKit
          (CopilotKitError.misuse emptyAdapterMisuseMessage)),
        afterHook := none } := by
    unfold processDirectRequest
    simp [hempty]
  have hdisp := runtimeDispatch_direct w rt req hmode
  constructor
  · rw [processRuntimeRequest_outcome_eq, hdisp, hdir]
  · rw [processRuntimeRequest_effects_of_not_raw, hdisp, hdir]
    rw [hdisp, hdir]
    intro m hm
    simp at hm

/-- A runtime with no configuration at all (constructor called without params). -/
def rt7 : CopilotRuntime := CopilotRuntime.construct none

/-- The EmptyAdapter: flagged empty; its process capability is never reached. -/
def emptyAdapter : ServiceAdapter :=
  { isEmptyAdapter := true, process := fun _ => Except.error "EmptyAdapter cannot process" }

/-- A world in which every collaborator gives trivial answers. -/
def trivialWorld : World :=
  { convertGqlInputToMessages := fun ms => ms.map (fun m => { id := m.id })
    setupRemoteActions := fun _ _ _ _ => []
    assistantsSearch := fun _ _ _ => Except.ok []
    infoFetch := fun _ _ => Except.ok { status := 200, agents := some [] }
    agentsStateFetch := fun _ _ _ _ => Except.ok { status := 200 }
    threadsGetState := fun _ _ => Except.ok []
    randomId := fun n => "rnd-" ++ toString n
    langchainMessagesToCopilotKit := fun _ => "[]"
    jsonStringify := fun s => s }

/-- A no-session request using the EmptyAdapter. -/
def req7 : CopilotRuntimeRequest := { serviceAdapter := emptyAdapter }

/-- Witness for C7: the concrete EmptyAdapter request without an agent session
is rejected with the misuse error and an empty effect log. -/
theorem C7_witness :
    (processRuntimeRequest trivialWorld rt7 req7).outcome
      = Except.error (JSError.copilotKit (CopilotKitError.misuse emptyAdapterMisuseMessage))
    ∧ (processRuntimeRequest trivialWorld rt7 req7).effects = [] :=
  C7_empty_adapter_misuse trivialWorld rt7 req7 (Or.inl rfl) rfl

/-! ## Claim C4: unknown agent raises CopilotKitAgentDiscoveryError -/

/-- Claim C4: for every turn with an agent session whose agentName matches no
remote-agent action in the resolved server-side action set, processing raises
CopilotKitAgentDiscoveryError and no remote agent handler invocation appears in
the turn's effect log. -/
theorem C4_unknown_agent_discovery_error (w : World) (rt : CopilotRuntime)
    (req : CopilotRuntimeRequest) (s : AgentSessionInput)
    (hs : req.agentSession = some s)
    (hd : rt.delegateAgentProcessingToServiceAdapter = false)
    (hmiss : ∀ a ∈ getServerSideActions w rt req, ¬ (a.name = s.agentName ∧ a.isAgent = true)) :
    (processRuntimeRequest w rt req).outcome
      = Except.error (JSError.copilotKit (CopilotKitError.agentDiscovery s.agentName))
    ∧ ∀ args, Effect.remoteAgentInvoke args ∉ (processRuntimeRequest w rt req).effects := by
  have hfind : (getServerSideActions w rt req).find?
      (fun action => action.name == s.agentName && action.isAgent) = none := by
    rw [List.find?_eq_none]
    intro a ha
    have h := hmiss a ha
    simp only [Bool.and_eq_true, beq_iff_eq]
    tauto
  have hagent : processAgentRequest w rt req s =
      { effects := [Effect.setupRemoteActionsRun],
        outcome := Except.error (JSError.copilotKit
          (CopilotKitError.agentDiscovery s.agentName)),
        afterHook := none } := by
    unfold processAgentRequest
    simp only [hfind]
  have hdisp := runtimeDispatch_agent w rt req s hs hd
  constructor
  · rw [processRuntimeRequest_outcome_eq, hdisp, hagent]
  · intro args
    rw [processRuntimeRequest_effects_of_not_raw, hdisp, hagent]
    · simp
    · rw [hdisp, hagent]
      intro m hm
      simp at hm

/-- A request carrying an agent session for the agent ghost, with an adapter
that is never consulted on the agent path. -/
def req4 : CopilotRuntimeRequest :=
  { serviceAdapter :=
      { isEmptyAdapter := false
        process := fun _ => Except.ok { threadId := "t-adapter" } }
    agentSession := some { agentName := "ghost" } }

/-- Witness for C4: with no server-side actions at all, the session on ghost is
rejected with the agent-discovery error and no handler invocation is logged. -/
theorem C4_witness :
    (processRuntimeRequest trivialWorld rt7 req4).outcome
      = Except.error (JSError.copilotKit (CopilotKitError.agentDiscovery "ghost"))
    ∧ ∀ args, Effect.remoteAgentInvoke args ∉ (processRuntimeRequest trivialWorld rt7 req4).effects :=
  C4_unknown_agent_discovery_error trivialWorld rt7 req4 { agentName := "ghost" } rfl rfl
    (by intro a ha; simp [getServerSideActions, trivialWorld, rt7,
      CopilotRuntime.construct] at ha)

/-! ## Claim C3: thread id resolution on the direct path -/

/-- Claim C3: for every direct-dispatch turn that returns a response, if the
request carries no threadId then the response's threadId is the one reported by
the service adapter's process result, and if the request carries a threadId the
response echoes the caller-supplied value regardless of what the adapter
reports. -/
theorem C3_thread_id_resolution (w : World) (rt : CopilotRuntime) (req : CopilotRuntimeRequest)
    (hmode : req.agentSession = none ∨ rt.delegateAgentProcessingToServiceAdapter = true)
    (resp : CopilotRuntimeResponse)
    (hok : (processRuntimeRequest w rt req).outcome = Except.ok resp)
    (result : AdapterResult)
    (hres : req.serviceAdapter.process (directAdapterArgs w rt req) = Except.ok result) :
    (req.threadId = none → resp.threadId = some result.threadId)
    ∧ (∀ t, req.threadId = some t → resp.threadId = some t) := by
  rw [processRuntimeRequest_outcome_eq, runtimeDispatch_direct w rt req hmode] at hok
  unfold processDirectRequest at hok
  by_cases hemp : req.serviceAdapter.isEmptyAdapter = true
  · simp [hemp] at hok
  · simp only [hemp, Bool.false_eq_true, if_false, if_neg] at hok
    split at hok
    · simp at hok
    · rw [hres] at hok
      simp only [Except.ok.injEq] at hok
      subst hok
      constructor
      · intro ht; simp [ht]
      · intro t ht; simp [ht]

/-- A direct request without a caller-supplied threadId. -/
def req3 : CopilotRuntimeRequest :=
  { serviceAdapter :=
      { isEmptyAdapter := false
        process := fun _ => Except.ok { threadId := "t-adapter" } } }

/-- The response req3 produces. -/
def resp3 : CopilotRuntimeResponse :=
  { threadId := some "t-adapter", runId := none, serverSideActions := [],
    actionInputsWithoutAgents := [], extensions := none }

/-- Witness for C3: on the concrete direct turn with no caller-supplied
threadId, the response's threadId equals the adapter-reported t-adapter. -/
theorem C3_witness :
    resp3.threadId = some (AdapterResult.mk "t-adapter" none none).threadId :=
  (C3_thread_id_resolution trivialWorld rt7 req3 (Or.inl rfl) resp3 (by rfl)
    (AdapterResult.mk "t-adapter" none none) (by rfl)).1 rfl

/-! ## Claim C2: self-delegation exclusion -/

lemma delegated_names_ne (serverSideActions : List SSAction) (clientActions : List ActionInput)
    (agentName : String)
    (hsrv : ∀ a ∈ serverSideActions, a.name = agentName → a.isAgent = true)
    (hcli : ∀ c ∈ clientActions, c.name ≠ agentName) :
    ∀ x ∈ delegatedActionInputs serverSideActions clientActions agentName,
      x.name ≠ agentName := by
  intro x hx
  simp only [delegatedActionInputs] at hx
  rcases List.mem_append.mp (mem_of_mem_flatten hx) with hm | hm
  · obtain ⟨a, ha, rfl⟩ := List.mem_map.mp hm
    rw [List.mem_filter] at ha
    obtain ⟨hass, hp⟩ := ha
    intro hname
    have haname : a.name = agentName := hname
    have hag := hsrv a hass haname
    rw [decide_eq_true_eq] at hp
    rcases hp with h1 | h2
    · exact h1 hag
    · exact h2.2 haname
  · exact hcli x hm

/-- A server-side remote-agent action named A. -/
def agentASS : SSAction :=
  { name := "A", description := "agent A", jsonSchema := "sa", isAgent := true }

/-- A client-declared action that also bears the name A. -/
def clientA : ActionInput := { name := "A", description := "client tool A", jsonSchema := "ca" }

/-- An ordinary LLM service adapter reporting a fixed thread id. -/
def okAdapter : ServiceAdapter :=
  { isEmptyAdapter := false, process := fun _ => Except.ok { threadId := "t-adapter" } }

/-- A direct endpoint configured on the counterexample runtime. -/
def ep2 : EndpointDefinition := { url := "http://agents.example" }

/-- A world whose endpoint contributes exactly the remote-agent action A. -/
def w2 : World := { trivialWorld with setupRemoteActions := fun _ _ _ _ => [agentASS] }

/-- The counterexample runtime: one remote endpoint, nothing else. -/
def rt2 : CopilotRuntime :=
  { actions := ActionsConfiguration.list [], remoteEndpointDefinitions := [ep2] }

/-- A turn with an agent session on A whose client-declared actions contain an
action named A. -/
def req2 : CopilotRuntimeRequest :=
  { serviceAdapter := okAdapter, actions := [clientA],
    agentSession := some { agentName := "A" } }

/-- Counterexample to C2 as stated: on the concrete turn req2, delegating to the
agent named A, the full server action set contains an action named A (the agent
itself) and the client-declared actions contain an entry named A; the turn
succeeds and the returned actionInputsWithoutAgents (the delegated action set,
also passed to A's remote agent handler) DOES contain an entry named A - the
client-declared one, which the self-exclusion filter never touches. -/
theorem C2_counterexample :
    (match (processRuntimeRequest w2 rt2 req2).outcome with
     | Except.ok resp => resp.actionInputsWithoutAgents.any (fun x => x.name == "A")
     | Except.error _ => false) = true := by decide

/-- Claim C2 amended: the delegated action set passed to agent A's remote agent
handler (and returned as actionInputsWithoutAgents) never contains an entry
named A PROVIDED every server-side action named A is a remote-agent action and
no client-declared action is named A. (The source's filter excludes only the
agent's own remote-agent action; a non-agent server action or a client-declared
action bearing the agent's name still reaches the delegated set, as the
counterexample shows.) -/
theorem C2_self_delegation_amended (w : World) (rt : CopilotRuntime)
    (req : CopilotRuntimeRequest) (s : AgentSessionInput)
    (hsrv : ∀ a ∈ getServerSideActions w rt req, a.name = s.agentName → a.isAgent = true)
    (hcli : ∀ c ∈ req.actions, c.name ≠ s.agentName) :
    (∀ args, Effect.remoteAgentInvoke args ∈ (processAgentRequest w rt req s).effects →
      ∀ x ∈ args.actionInputsWithoutAgents, x.name ≠ s.agentName)
    ∧ (∀ resp, (processAgentRequest w rt req s).outcome = Except.ok resp →
      ∀ x ∈ resp.actionInputsWithoutAgents, x.name ≠ s.agentName) := by
  have key := delegated_names_ne (getServerSideActions w rt req) req.actions s.agentName
    hsrv hcli
  simp only [processAgentRequest]
  split
  · constructor
    · intro args hargs
      simp at hargs
    · intro resp h
      simp at h
  · split
    · constructor
      · intro args hargs
        simp at hargs
      · intro resp h
        simp at h
    · constructor
      · intro args hargs
        simp only [List.mem_cons, List.not_mem_nil, or_false] at hargs
        rcases hargs with h | h | h
        · exact absurd h (by simp)
        · exact absurd h (by simp)
        · rw [Effect.remoteAgentInvoke.injEq] at h
          subst h
          exact key
      · intro resp h
        simp only [Except.ok.injEq] at h
        subst h
        exact key

/-- A server-side remote-agent action named B. -/
def agentBSS : SSAction :=
  { name := "B", description := "agent B", jsonSchema := "sb", isAgent := true }

/-- A client-declared action with a name unrelated to any agent. -/
def clientC : ActionInput := { name := "c-tool", description := "client tool", jsonSchema := "cc" }

/-- A world whose endpoint contributes exactly the remote-agent action B. -/
def w2b : World := { trivialWorld with setupRemoteActions := fun _ _ _ _ => [agentBSS] }

/-- The session delegating to agent B. -/
def s2b : AgentSessionInput := { agentName := "B" }

/-- A turn delegating to B with one unrelated client action. -/
def req2b : CopilotRuntimeRequest :=
  { serviceAdapter := okAdapter, actions := [clientC], agentSession := some s2b }

/-- Witness for the amended C2 on a concrete turn delegating to agent B: no
delegated entry is named B, in the handler invocation or in the response. -/
theorem C2_amended_witness :
    (∀ args, Effect.remoteAgentInvoke args ∈ (processAgentRequest w2b rt2 req2b s2b).effects →
      ∀ x ∈ args.actionInputsWithoutAgents, x.name ≠ s2b.agentName)
    ∧ (∀ resp, (processAgentRequest w2b rt2 req2b s2b).outcome = Except.ok resp →
      ∀ x ∈ resp.actionInputsWithoutAgents, x.name ≠ s2b.agentName) :=
  C2_self_delegation_amended w2b rt2 req2b s2b (by decide) (by decide)

/-! ## Claim C5: endpoint error classification during discovery -/

/-- Claim C5: for every DirectEndpoint queried during agent discovery (one step
of the discovery reduce), an HTTP 404 on /info raises CopilotKitApiDiscoveryError
carrying the attempted url; any other non-2xx response raises
ResolvedCopilotKitError carrying the status, the url and the remote-endpoint
flag; and a network-level rejection raises CopilotKitLowLevelError wrapping the
original cause and the url. -/
theorem C5_endpoint_error_classification (w : World) (properties : Props)
    (endpoint : EndpointDefinition) (idBase : Nat)
    (hdirect : endpoint.type ≠ some EndpointType.langGraphPlatform) :
    (∀ response, w.infoFetch (endpoint.url ++ "/info") properties = Except.ok response →
      ¬ (200 ≤ response.status ∧ response.status < 300) →
      ((response.status = 404 →
          discoverEndpointAgents w properties endpoint idBase
            = Except.error (JSError.copilotKit
              (CopilotKitError.apiDiscovery (endpoint.url ++ "/info"))))
       ∧ (response.status ≠ 404 →
          discoverEndpointAgents w properties endpoint idBase
            = Except.error (JSError.copilotKit
              (CopilotKitError.resolved response.status (endpoint.url ++ "/info") true)))))
    ∧ (∀ cause, w.infoFetch (endpoint.url ++ "/info") properties = Except.error cause →
        discoverEndpointAgents w properties endpoint idBase
          = Except.error (JSError.copilotKit
            (CopilotKitError.lowLevel cause (endpoint.url ++ "/info")))) := by
  constructor
  · intro response hfetch hnok
    constructor
    · intro h404
      simp [discoverEndpointAgents, hdirect, hfetch, hnok, h404]
    · intro hnot
      simp [discoverEndpointAgents, hdirect, hfetch, hnok, hnot]
  · intro cause hfetch
    simp [discoverEndpointAgents, hdirect, hfetch]

/-- A direct endpoint used for the discovery error-classification witness. -/
def ep5 : EndpointDefinition := { url := "http://direct.example" }

/-- A world whose /info route answers HTTP 404. -/
def w404 : World := { trivialWorld with infoFetch := fun _ _ => Except.ok { status := 404 } }

/-- Witness for C5: the concrete endpoint answering 404 on /info yields the
discovery-failure error carrying the attempted url. -/
theorem C5_witness :
    discoverEndpointAgents w404 {} ep5 0
      = Except.error (JSError.copilotKit
        (CopilotKitError.apiDiscovery "http://direct.example/info")) :=
  ((C5_endpoint_error_classification w404 {} ep5 0 (by decide)).1
    { status := 404 } (by rfl) (by decide)).1 rfl

/-! ## Claim C9: agent id assignment during discovery -/

lemma assignIds_length (w : World) (endpoint : EndpointDefinition) :
    ∀ (entries : List InfoAgentEntry) (idx : Nat),
      (assignIds w endpoint entries idx).length = entries.length := by
  intro entries
  induction entries with
  | nil => intro idx; simp [assignIds]
  | cons e rest ih => intro idx; simp [assignIds, ih]

lemma assignIds_map_id (w : World) (endpoint : EndpointDefinition) :
    ∀ (entries : List InfoAgentEntry) (idx : Nat),
      (assignIds w endpoint entries idx).map (fun a => a.id)
        = (List.range entries.length).map (fun i => w.randomId (idx + i)) := by
  intro entries
  induction entries with
  | nil => intro idx; simp [assignIds]
  | cons e rest ih =>
    intro idx
    simp only [assignIds, List.map_cons, List.length_cons]
    rw [List.range_succ_eq_map]
    simp only [List.map_cons, List.map_map, Nat.add_zero]
    refine congrArg₂ List.cons rfl ?_
    rw [ih (idx + 1)]
    apply List.map_congr_left
    intro i _
    simp only [Function.comp_apply]
    congr 1
    omega

/-- The direct endpoint whose /info body supplies an agent id. -/
def ep9 : EndpointDefinition := { url := "http://direct9.example" }

/-- A world whose /info body carries one agent and supplies the server-side id
srv-1 for it (random ids are drawn from the rnd-indexed supply). -/
def w9 : World :=
  { trivialWorld with
    infoFetch := fun _ _ => Except.ok
      { status := 200,
        agents := some [{ name := "helper", description := some "d", id := some "srv-1" }] } }

/-- Counterexample to C9 as stated: the endpoint supplies the id srv-1 in its
/info response, yet the discovered agent's id is the freshly generated rnd-0.
The mapping in the source always calls randomId() for DirectEndpoint agents and
never reads an id from the response body. -/
theorem C9_counterexample :
    ((match discoverEndpointAgents w9 {} ep9 0 with
      | Except.ok (agents, _) => agents.map (fun a => a.id)
      | Except.error _ => []) = ["rnd-0"]
     ∧ "rnd-0" ≠ "srv-1") := by decide

/-- Claim C9 amended: for every agent discovered from a DirectEndpoint, the id
is always a freshly generated random id (the next draws of the random-id
supply, in order), regardless of whether the endpoint supplies one; for every
agent from a PlatformEndpoint, the id equals the endpoint's native assistant
identifier. -/
theorem C9_agent_id_assignment (w : World) (properties : Props)
    (endpoint : EndpointDefinition) (idBase : Nat) :
    (endpoint.type ≠ some EndpointType.langGraphPlatform →
      ∀ agents nextId,
        discoverEndpointAgents w properties endpoint idBase = Except.ok (agents, nextId) →
        agents.map (fun a => a.id)
          = (List.range agents.length).map (fun i => w.randomId (idBase + i)))
    ∧ (endpoint.type = some EndpointType.langGraphPlatform →
      ∀ entries, w.assistantsSearch (endpoint.deploymentUrl.getD "")
          endpoint.langsmithApiKey properties = Except.ok entries →
        ∀ agents nextId,
          discoverEndpointAgents w properties endpoint idBase = Except.ok (agents, nextId) →
          agents.map (fun a => a.id) = entries.map (fun entry => entry.assistant_id)) := by
  constructor
  · intro hdirect agents nextId hok
    rcases hf : w.infoFetch (endpoint.url ++ "/info") properties with cause | response
    · simp [discoverEndpointAgents, hdirect, hf] at hok
    · by_cases hst : 200 ≤ response.status ∧ response.status < 300
      · simp only [discoverEndpointAgents, if_neg hdirect, hf, if_pos hst,
          Except.ok.injEq, Prod.mk.injEq] at hok
        obtain ⟨h1, -⟩ := hok
        subst h1
        rw [assignIds_length]
        exact assignIds_map_id w endpoint _ idBase
      · by_cases h404 : response.status = 404 <;>
          simp [discoverEndpointAgents, hdirect, hf, hst, h404] at hok
  · intro hplat entries hsearch agents nextId hok
    simp only [discoverEndpointAgents, if_pos hplat, hsearch, Except.ok.injEq,
      Prod.mk.injEq] at hok
    obtain ⟨h1, -⟩ := hok
    subst h1
    simp [List.map_map, Function.comp_def]

/-- The single agent req9 discovery produces: the wire-supplied id is ignored
and the first random id is assigned. -/
def agents9 : List AgentWithEndpoint :=
  [{ name := "helper", id := "rnd-0", description := "d", endpoint := ep9 }]

/-- Witness for the amended C9: on the concrete direct endpoint the discovered
agent ids are exactly the random-id draws starting at index 0. -/
theorem C9_amended_witness :
    agents9.map (fun a => a.id)
      = (List.range agents9.length).map (fun i => w9.randomId (0 + i)) :=
  (C9_agent_id_assignment w9 {} ep9 0).1 (by decide) agents9 1 (by decide)

/-! ## Claim C6: loadAgentState against a platform endpoint -/

/-- Claim C6: for every loadAgentState call resolving to a PlatformEndpoint
agent, a thread-state fetch that throws, or returns an empty state object, is
not propagated: the call returns threadExists false with the serialized empty
object as state and the serialized empty list as messages. A non-empty fetched
state yields threadExists true with the messages key stripped from the
serialized state (and the messages converted through the langchain
conversion). -/
theorem C6_load_agent_state_platform (w : World) (rt : CopilotRuntime) (properties : Props)
    (threadId : String) (agentName : String)
    (agents : List AgentWithEndpoint) (agentWithEndpoint : AgentWithEndpoint)
    (hdisc : discoverAgentsFromEndpoints w rt properties = Except.ok agents)
    (hfind : agents.find? (fun agent => agent.name == agentName) = some agentWithEndpoint)
    (hplat : agentWithEndpoint.endpoint.type = some EndpointType.langGraphPlatform) :
    (∀ err, w.threadsGetState (agentWithEndpoint.endpoint.deploymentUrl.getD "") threadId
        = Except.error err →
      loadAgentState w rt properties threadId agentName
        = Except.ok { threadId := jsOr threadId "", threadExists := false,
                      state := "\x7b\x7d", messages := "[]" })
    ∧ (w.threadsGetState (agentWithEndpoint.endpoint.deploymentUrl.getD "") threadId
        = Except.ok [] →
      loadAgentState w rt properties threadId agentName
        = Except.ok { threadId := jsOr threadId "", threadExists := false,
                      state := "\x7b\x7d", messages := "[]" })
    ∧ (∀ st, w.threadsGetState (agentWithEndpoint.endpoint.deploymentUrl.getD "") threadId
        = Except.ok st → st ≠ [] →
      loadAgentState w rt properties threadId agentName
        = Except.ok { threadId := jsOr threadId "", threadExists := true,
                      state := stringifyObj (st.filter (fun kv => kv.1 ≠ "messages")),
                      messages := w.langchainMessagesToCopilotKit
                        ((st.find? (fun kv => kv.1 == "messages")).map (fun kv => kv.2)) }) := by
  refine ⟨?_, ?_, ?_⟩
  · intro err herr
    simp only [loadAgentState, hdisc, hfind, if_pos hplat, herr]
    rfl
  · intro hempty
    simp only [loadAgentState, hdisc, hfind, if_pos hplat, hempty]
    rfl
  · intro st hst hne
    have hlen : ¬ st.length = 0 := by
      simpa [List.length_eq_zero] using hne
    simp only [loadAgentState, hdisc, hfind, if_pos hplat, hst, if_neg hlen]

/-- A platform endpoint, tagged, with deployment url and declared agents. -/
def ep6 : EndpointDefinition :=
  { type := some EndpointType.langGraphPlatform, deploymentUrl := some "http://lg.example",
    langsmithApiKey := some "key6", agents := some ["ag"] }

/-- A world where the platform lists one assistant for the graph ag and every
thread-state fetch rejects. -/
def w6 : World :=
  { trivialWorld with
    assistantsSearch := fun _ _ _ =>
      Except.ok [{ assistant_id := "asst-1", graph_id := "ag" }]
    threadsGetState := fun _ _ => Except.error "socket hang up" }

/-- The runtime configured with the single platform endpoint. -/
def rt6 : CopilotRuntime :=
  { actions := ActionsConfiguration.list [], remoteEndpointDefinitions := [ep6] }

/-- The agent discovery resolves for the witness call. -/
def agent6 : AgentWithEndpoint :=
  { name := "ag", id := "asst-1", description := "", endpoint := ep6 }

/-- Witness for C6: against the platform endpoint whose thread-state fetch
throws, loadAgentState returns threadExists false with the empty serialized
state and messages rather than propagating the rejection. -/
theorem C6_witness :
    loadAgentState w6 rt6 {} "t1" "ag"
      = Except.ok { threadId := "t1", threadExists := false,
                    state := "\x7b\x7d", messages := "[]" } :=
  (C6_load_agent_state_platform w6 rt6 {} "t1" "ag" [agent6] agent6
    (by rfl) (by rfl) rfl).1 "socket hang up" rfl

/-! ## Claim C8: the after-hook is detached and harmless -/

lemma processDirectRequest_afterHook_none (w : World) (rt : CopilotRuntime)
    (req : CopilotRuntimeRequest) (e : String)
    (he : req.outputMessagesPromise = Except.error e) :
    (processDirectRequest w rt req).afterHook = none := by
  simp only [processDirectRequest, he]
  repeat' split
  all_goals rfl

lemma processAgentRequest_afterHook_none (w : World) (rt : CopilotRuntime)
    (req : CopilotRuntimeRequest) (s : AgentSessionInput) (e : String)
    (he : req.outputMessagesPromise = Except.error e) :
    (processAgentRequest w rt req s).afterHook = none := by
  simp only [processAgentRequest, he]
  repeat' split
  all_goals rfl

lemma processDirectRequest_afterHook_some (w : World) (rt : CopilotRuntime)
    (req : CopilotRuntimeRequest) (out : List Message)
    (hp : req.outputMessagesPromise = Except.ok out) :
    (∃ resp, (processDirectRequest w rt req).outcome = Except.ok resp) →
    ∃ args, (processDirectRequest w rt req).afterHook = some args
      ∧ args.outputMessages = out := by
  simp only [processDirectRequest, hp]
  repeat' split
  all_goals intro h
  all_goals simp_all

lemma processAgentRequest_afterHook_some (w : World) (rt : CopilotRuntime)
    (req : CopilotRuntimeRequest) (s : AgentSessionInput) (out : List Message)
    (hp : req.outputMessagesPromise = Except.ok out) :
    (∃ resp, (processAgentRequest w rt req s).outcome = Except.ok resp) →
    ∃ args, (processAgentRequest w rt req s).afterHook = some args
      ∧ args.outputMessages = out := by
  simp only [processAgentRequest, hp]
  repeat' split
  all_goals intro h
  all_goals simp_all

lemma runtimeDispatch_afterHook_lemma (w : World) (rt : CopilotRuntime)
    (req : CopilotRuntimeRequest) :
    (∀ e, req.outputMessagesPromise = Except.error e →
        (runtimeDispatch w rt req).afterHook = none)
    ∧ (∀ resp out, (runtimeDispatch w rt req).outcome = Except.ok resp →
        req.outputMessagesPromise = Except.ok out →
        ∃ args, (runtimeDispatch w rt req).afterHook = some args
          ∧ args.outputMessages = out) := by
  rcases hs : req.agentSession with _ | s <;> simp only [runtimeDispatch, hs]
  · exact ⟨fun e he => processDirectRequest_afterHook_none w rt req e he,
      fun resp out hok hp =>
        processDirectRequest_afterHook_some w rt req out hp ⟨resp, hok⟩⟩
  · split
    · exact ⟨fun e he => processAgentRequest_afterHook_none w rt req s e he,
        fun resp out hok hp =>
          processAgentRequest_afterHook_some w rt req s out hp ⟨resp, hok⟩⟩
    · exact ⟨fun e he => processDirectRequest_afterHook_none w rt req e he,
        fun resp out hok hp =>
          processDirectRequest_afterHook_some w rt req out hp ⟨resp, hok⟩⟩

lemma processDirectRequest_indep (w : World) (rt : CopilotRuntime)
    (req : CopilotRuntimeRequest)
    (h' : Option (OnAfterRequestOptions → Except String Unit))
    (p' : Except String (List Message)) :
    (processDirectRequest w { rt with onAfterRequest := h' }
        { req with outputMessagesPromise := p' }).outcome
      = (processDirectRequest w rt req).outcome
    ∧ (processDirectRequest w { rt with onAfterRequest := h' }
        { req with outputMessagesPromise := p' }).effects
      = (processDirectRequest w rt req).effects := by
  constructor <;>
  · simp only [processDirectRequest, getServerSideActions, directAdapterArgs]
    repeat' split
    all_goals simp_all

lemma processAgentRequest_indep (w : World) (rt : CopilotRuntime)
    (req : CopilotRuntimeRequest) (s : AgentSessionInput)
    (h' : Option (OnAfterRequestOptions → Except String Unit))
    (p' : Except String (List Message)) :
    (processAgentRequest w { rt with onAfterRequest := h' }
        { req with outputMessagesPromise := p' } s).outcome
      = (processAgentRequest w rt req s).outcome
    ∧ (processAgentRequest w { rt with onAfterRequest := h' }
        { req with outputMessagesPromise := p' } s).effects
      = (processAgentRequest w rt req s).effects := by
  constructor <;>
  · simp only [processAgentRequest, getServerSideActions, delegatedActionInputs]
    repeat' split
    all_goals simp_all

lemma runtimeDispatch_indep (w : World) (rt : CopilotRuntime) (req : CopilotRuntimeRequest)
    (h' : Option (OnAfterRequestOptions → Except String Unit))
    (p' : Except String (List Message)) :
    (runtimeDispatch w { rt with onAfterRequest := h' }
        { req with outputMessagesPromise := p' }).outcome
      = (runtimeDispatch w rt req).outcome
    ∧ (runtimeDispatch w { rt with onAfterRequest := h' }
        { req with outputMessagesPromise := p' }).effects
      = (runtimeDispatch w rt req).effects := by
  rcases hs : req.agentSession with _ | s <;> simp only [runtimeDispatch, hs]
  · exact processDirectRequest_indep w rt req h' p'
  · by_cases hd : rt.delegateAgentProcessingToServiceAdapter = true <;> simp only [hd]
    · simp only [not_true, if_neg, ite_false, if_false]
      exact processDirectRequest_indep w rt req h' p'
    · simp only [Bool.not_eq_true] at hd
      simp only [hd, Bool.false_eq_true, not_false_iff, if_true, ite_true]
      exact processAgentRequest_indep w rt req s h' p'

/-- Claim C8: for every turn, replacing the after-hook and the outcome of the
output-messages promise never changes the returned Turn Response (the outcome
is identical - the after-hook is fire-and-forget, not awaited, and its result,
including a rejection, is discarded); the deferred after-hook invocation is
never scheduled when the output-messages promise rejects (the rejection is
caught and swallowed); and on every successful turn whose promise resolves, the
after-hook invocation is scheduled exactly with the resolved output messages,
so it can only fire after the promise resolves. -/
theorem C8_after_hook_detached (w : World) (rt : CopilotRuntime) (req : CopilotRuntimeRequest)
    (h' : Option (OnAfterRequestOptions → Except String Unit))
    (p' : Except String (List Message)) :
    ((processRuntimeRequest w { rt with onAfterRequest := h' }
        { req with outputMessagesPromise := p' }).outcome
      = (processRuntimeRequest w rt req).outcome)
    ∧ (∀ e, req.outputMessagesPromise = Except.error e →
        (processRuntimeRequest w rt req).afterHook = none)
    ∧ (∀ resp out, (processRuntimeRequest w rt req).outcome = Except.ok resp →
        req.outputMessagesPromise = Except.ok out →
        ∃ args, (processRuntimeRequest w rt req).afterHook = some args
          ∧ args.outputMessages = out) := by
  refine ⟨?_, ?_, ?_⟩
  · rw [processRuntimeRequest_outcome_eq, processRuntimeRequest_outcome_eq]
    exact (runtimeDispatch_indep w rt req h' p').1
  · intro e he
    rw [processRuntimeRequest_afterHook_eq]
    exact (runtimeDispatch_afterHook_lemma w rt req).1 e he
  · intro resp out hok hp
    rw [processRuntimeRequest_outcome_eq] at hok
    rw [processRuntimeRequest_afterHook_eq]
    exact (runtimeDispatch_afterHook_lemma w rt req).2 resp out hok hp

/-- A direct turn whose output-messages promise rejects. -/
def req8 : CopilotRuntimeRequest :=
  { serviceAdapter := okAdapter, outputMessagesPromise := Except.error "hook input lost" }

/-- A replacement after-hook that always rejects. -/
def failingAfterHook : OnAfterRequestOptions → Except String Unit :=
  fun _ => Except.error "after-hook rejected"

/-- Witness for C8 at a concrete turn: swapping in a rejecting after-hook and a
rejected promise leaves the outcome unchanged, and with the rejected promise the
after-hook invocation is never scheduled. -/
theorem C8_witness :
    ((processRuntimeRequest trivialWorld
        { rt7 with onAfterRequest := some failingAfterHook }
        { req8 with outputMessagesPromise := Except.error "other" }).outcome
      = (processRuntimeRequest trivialWorld rt7 req8).outcome)
    ∧ (processRuntimeRequest trivialWorld rt7 req8).afterHook = none :=
  ⟨(C8_after_hook_detached trivialWorld rt7 req8 (some failingAfterHook)
      (Except.error "other")).1,
   (C8_after_hook_detached trivialWorld rt7 req8 (some failingAfterHook)
      (Except.error "other")).2.1 "hook input lost" rfl⟩

/-! ## Claim C10: static actions are discarded when remote endpoints are set -/

/-- Claim C10: for every runtime constructed with both a static actions list and
a non-empty remoteEndpoints list, the static actions are discarded - the
runtime's action configuration becomes the empty list, and every turn's
server-side action set consists only of the langserve and remote-endpoint
contributions, so no configured static action ever appears through the
configuration. -/
theorem C10_static_actions_discarded (p : CopilotRuntimeConstructorParams)
    (acts : List SSAction) (eps : List EndpointDefinition)
    (hacts : p.actions = some (ActionsConfiguration.list acts))
    (heps : p.remoteEndpoints = some eps) (hne : eps ≠ []) :
    (CopilotRuntime.construct (some p)).actions = ActionsConfiguration.list []
    ∧ ∀ (w : World) (req : CopilotRuntimeRequest),
        getServerSideActions w (CopilotRuntime.construct (some p)) req
          = (CopilotRuntime.construct (some p)).langserve.filterMap Except.toOption
            ++ w.setupRemoteActions
              ((CopilotRuntime.construct (some p)).remoteEndpointDefinitions.map
                (fun endpoint => { endpoint with type := some (resolveEndpointType endpoint) }))
              req.properties (w.convertGqlInputToMessages req.messages) req.url := by
  have hact : (CopilotRuntime.construct (some p)).actions = ActionsConfiguration.list [] := by
    simp [CopilotRuntime.construct, hacts, heps]
  refine ⟨hact, ?_⟩
  intro w req
  simp [getServerSideActions, hact]

/-- A static action that the constructor discards. -/
def staticAction10 : SSAction := { name := "static-10", description := "", jsonSchema := "s10" }

/-- The endpoint present alongside the static actions. -/
def ep10 : EndpointDefinition := { url := "http://ep10.example" }

/-- Constructor params carrying both a static actions list and endpoints. -/
def p10 : CopilotRuntimeConstructorParams :=
  { actions := some (ActionsConfiguration.list [staticAction10]),
    remoteEndpoints := some [ep10] }

/-- A minimal direct request for exercising getServerSideActions. -/
def req10 : CopilotRuntimeRequest := { serviceAdapter := okAdapter }

/-- Witness for C10: the concrete runtime built from p10 has an empty action
configuration and (with the trivial world contributing nothing) an empty
server-side action set - the static action never appears. -/
theorem C10_witness :
    (CopilotRuntime.construct (some p10)).actions = ActionsConfiguration.list []
    ∧ getServerSideActions trivialWorld (CopilotRuntime.construct (some p10)) req10 = [] :=
  ⟨(C10_static_actions_discarded p10 [staticAction10] [ep10] rfl rfl (by simp)).1,
   (C10_static_actions_discarded p10 [staticAction10] [ep10] rfl rfl (by simp)).2
     trivialWorld req10⟩

end CK
